import Mathlib

/-!
Shallow embedding of the RPC gateway of `src/rpc.js` (`makeRpcServer`,
duplicated in TypeScript in `src/unnamed/part_000`).  The embedding follows
the JavaScript source line by line; JavaScript-language semantics that the
source relies on (property lookup through `Object.prototype`, the spread
operator, `JSON.stringify` dropping `undefined`-valued fields, destructuring
of `null` throwing) are modelled explicitly below, each at its use site.

Simplifications, stated once here:
* numbers are `Int` (every number the demos and the spec exercise is a small
  integer; no claim depends on float behaviour);
* the text of engine-raised `TypeError`s is engine specific, so it is held in
  named constants; no theorem depends on the exact wording, only on the fact
  that a string message is produced;
* `console.log` calls are side effects invisible to the client and are
  dropped;
* response headers model only the headers the source sets explicitly; the
  runtime default `Content-Type` on plain-text responses is not modelled
  (no claim mentions it).
-/

/-- A JavaScript value as far as the gateway can observe one: the values
occurring in parsed JSON bodies, handler results, and serialized responses.
`undefined` is the JavaScript `undefined` (never produced by `JSON.parse`, but
producible by handlers and by missing-field access). -/
inductive Js where
  | undefined
  | null
  | bool (b : Bool)
  | num (n : Int)
  | str (s : String)
  | arr (elems : List Js)
  | obj (fields : List (String × Js))
deriving Repr

mutual

/-- `JSON.stringify` semantics at the value level: the JSON value denoted by
the text `JSON.stringify` produces.  `none` when `JSON.stringify` returns
`undefined` (top-level `undefined`).  Inside objects, `undefined`-valued
fields are dropped; inside arrays, `undefined` elements become `null`. -/
def jsonify : Js → Option Js
  | .undefined => none
  | .null => some .null
  | .bool b => some (.bool b)
  | .num n => some (.num n)
  | .str s => some (.str s)
  | .arr xs => some (.arr (jsonifyList xs))
  | .obj fs => some (.obj (jsonifyFields fs))

/-- Serialization of array elements: `undefined` becomes `null`. -/
def jsonifyList : List Js → List Js
  | [] => []
  | x :: xs => (jsonify x).getD .null :: jsonifyList xs

/-- Serialization of object fields: fields whose value serializes to nothing
(`undefined`) are omitted. -/
def jsonifyFields : List (String × Js) → List (String × Js)
  | [] => []
  | (k, v) :: fs =>
    match jsonify v with
    | some w => (k, w) :: jsonifyFields fs
    | none => jsonifyFields fs

end

/-- `JSON.stringify` applied where the source always passes an object (so the
result is never `undefined`); the default is unreachable at those call
sites. -/
def jsonifyD (j : Js) : Js := (jsonify j).getD .null

/-- The keys of a serialized JSON object body (empty for non-objects). -/
def jsKeys : Js → List String
  | .obj fs => fs.map Prod.fst
  | _ => []

mutual

/-- `ToPropertyKey` / `ToString` of a JavaScript value, as used by the
property access `api[method]`: strings pass through, other primitives print,
arrays join their elements with commas (`Array.prototype.toString`), plain
objects print as `[object Object]`. -/
def jsToPropKey : Js → String
  | .undefined => "undefined"
  | .null => "null"
  | .bool b => cond b "true" "false"
  | .num n => toString n
  | .str s => s
  | .arr xs => joinKeys xs
  | .obj _ => "[object Object]"

/-- `Array.prototype.join` with separator `,`: `null` and `undefined`
elements print as the empty string. -/
def joinKeys : List Js → String
  | [] => ""
  | [Js.undefined] => ""
  | [Js.null] => ""
  | [x] => jsToPropKey x
  | Js.undefined :: xs => "," ++ joinKeys xs
  | Js.null :: xs => "," ++ joinKeys xs
  | x :: xs => jsToPropKey x ++ "," ++ joinKeys xs

end

/-- Does the second character list start the first? -/
def startsWithChars : List Char → List Char → Bool
  | [], _ => true
  | _ :: _, [] => false
  | p :: ps, c :: cs => p == c && startsWithChars ps cs

/-- Does the pattern occur somewhere in the haystack? -/
def containsChars (pat : List Char) : List Char → Bool
  | [] => startsWithChars pat []
  | c :: cs => startsWithChars pat (c :: cs) || containsChars pat cs

/-- `String.prototype.includes`: substring test, case sensitive, used on the
`content-type` header value. -/
def strIncludes (s sub : String) : Bool := containsChars sub.data s.data

/-- Outcome of invoking a registered handler (after awaiting): a returned
value, or a raised `Error` carrying its `message` string. -/
inductive HandlerResult where
  | ok (v : Js)
  | thrown (msg : String)

/-- A registered method: a JavaScript function, seen through the gateway as a
map from the positional argument list to an outcome. -/
def Handler := List Js → HandlerResult

/-- The method registry: the own enumerable properties of the `api` object
passed to `makeRpcServer`, in insertion order; every value is a function
(the registry maps names to callables). -/
structure Api where
  methods : List (String × Handler)

/-- The configuration destructured from `options` at the top of
`makeRpcServer` (the port does not influence any response). -/
structure Config where
  allowedOrigins : List String
  staticFile : Option String

/-- An incoming HTTP request, reduced to the fields the handler reads.
`contentType` and `origin` are `req.headers.get(...)` (`none` for an absent
header).  `body` is the result of `await req.json()` on demand: `none` when
the body text is not valid JSON (the parse throws), `some j` when it parses
to the JSON value `j`. -/
structure Request where
  httpMethod : String
  pathname : String
  contentType : Option String
  origin : Option String
  body : Option Js

/-- A response body: empty (`null` body), plain text, the JSON value denoted
by a `JSON.stringify` output, or the contents of a named static file. -/
inductive Body where
  | empty
  | text (s : String)
  | json (j : Js)
  | file (name : String)
deriving Repr

/-- An HTTP response: status plus the headers the source sets explicitly. -/
structure Response where
  status : Nat
  headers : List (String × String)
  body : Body
deriving Repr

/-- Read a response header by exact name. -/
def Response.header (r : Response) (k : String) : Option String :=
  (r.headers.find? (fun p => p.1 == k)).map Prod.snd

/-- Property access `payload.method` / `payload.args` on a parsed JSON value
that is not `null`/`undefined`: object fields are looked up (later duplicate
keys win, as in JavaScript), everything else (boxed primitives, arrays) has
no own property named `method` or `args`, giving `undefined`. -/
def jsGetField : Js → String → Js
  | .obj fs, k =>
    (fs.foldl (fun acc p => if p.1 == k then some p.2 else acc) none).getD .undefined
  | _, _ => .undefined

/-- Representative text of the engine `TypeError` raised by `fn(...args)`
when `args` is not iterable (exact wording is engine specific; no theorem
depends on it). -/
def spreadTypeError : String := "Spread syntax requires ...iterable"

/-- Representative text of the engine `TypeError` raised by calling an
`Object.prototype` function with an `undefined` receiver, or calling a
non-function (exact wording is engine specific; no theorem depends on it). -/
def protoTypeError : String := "undefined is not an object"

/-- The spread `fn(...args)` of a JavaScript value: arrays spread to their
elements, strings are iterable and spread to one-character strings, every
other value raises a `TypeError`. -/
def spreadArgs : Js → Except String (List Js)
  | .arr xs => .ok xs
  | .str s => .ok (s.data.map fun c => .str (String.singleton c))
  | _ => .error spreadTypeError

/-- The function-valued own properties of `Object.prototype`, inherited by
the plain-object registry and therefore reachable through `api[method]`. -/
def objectProtoKeys : List String :=
  ["constructor", "hasOwnProperty", "isPrototypeOf", "propertyIsEnumerable",
   "toLocaleString", "toString", "valueOf", "__defineGetter__",
   "__defineSetter__", "__lookupGetter__", "__lookupSetter__"]

/-- Behaviour of an inherited `Object.prototype` function invoked unbound in
strict mode (`this = undefined`), as `const fn = api[method]; fn(...args)`
does: `toString` returns `"[object Undefined]"`; `constructor` is `Object`,
whose result serializes like its argument (wrapper objects of primitives
stringify as the primitive); `isPrototypeOf` returns `false` before touching
`this` when its argument is not an object; every other one raises a
`TypeError` on the `undefined` receiver. -/
def protoMethod (k : String) : Handler := fun args =>
  match k with
  | "toString" => .ok (.str "[object Undefined]")
  | "constructor" =>
    match args.headD .undefined with
    | .undefined => .ok (.obj [])
    | .null => .ok (.obj [])
    | v => .ok v
  | "isPrototypeOf" =>
    match args.headD .undefined with
    | .obj _ => .thrown protoTypeError
    | .arr _ => .thrown protoTypeError
    | _ => .ok (.bool false)
  | _ => .thrown protoTypeError

/-- What the property access `api[method]` can yield when it is truthy: a
callable function, or the non-callable object `Object.prototype` reached
through the inherited `__proto__` accessor. -/
inductive Callee where
  | fn (h : Handler)
  | nonCallable

/-- Lookup among the own properties of the registry object (later duplicate
keys win, as in a JavaScript object literal). -/
def lookupOwn (api : Api) (k : String) : Option Handler :=
  api.methods.foldl (fun acc p => if p.1 == k then some p.2 else acc) none

/-- The full property access `api[k]` restricted to truthy results, as the
source tests with `if (!fn)`: own properties first, then the inherited
`Object.prototype` properties (all truthy: functions, and the
`Object.prototype` object itself behind `__proto__`). -/
def lookupApi (api : Api) (k : String) : Option Callee :=
  match lookupOwn api k with
  | some h => some (.fn h)
  | none =>
    if k == "__proto__" then some .nonCallable
    else if objectProtoKeys.contains k then some (.fn (protoMethod k))
    else none

/-- The value of the `Access-Control-Allow-Origin` header:
`isAllowed = origin && allowedOrigins.includes(origin)`, echoing the origin
when allowed and the empty string otherwise (an empty `Origin` value is
falsy, hence never echoed via the allow-list). -/
def allowOriginValue (cfg : Config) (origin : Option String) : String :=
  match origin with
  | some o => if o != "" && cfg.allowedOrigins.contains o then o else ""
  | none => ""

/-- The three CORS headers of the preflight response. -/
def corsHeaders (cfg : Config) (origin : Option String) : List (String × String) :=
  [("Access-Control-Allow-Origin", allowOriginValue cfg origin),
   ("Access-Control-Allow-Methods", "GET, POST, OPTIONS"),
   ("Access-Control-Allow-Headers", "Content-Type")]

/-- The header list of every JSON response the source builds. -/
def ctJsonHeaders : List (String × String) := [("Content-Type", "application/json")]

/-- One entry of the discovery response: `{name, type}` with
`type = "function"` since every registry value is a function (the TypeScript
variant adds best-effort `params`/`returnType`/`description` metadata; the
`name` set, which the claims are about, is identical in both variants). -/
def methodEntries (api : Api) : List Js :=
  api.methods.map (fun p => .obj [("name", .str p.1), ("type", .str "function")])

/-- The `name` field of a discovery entry. -/
def entryName (j : Js) : Js := jsGetField j "name"

/-- The static-file guard: `staticFile && req.method === "GET" &&
(pathname === "/" || pathname === "/" + staticFile)`; the empty string is
falsy. -/
def staticMatch (cfg : Config) (req : Request) : Bool :=
  match cfg.staticFile with
  | some s =>
    s != "" && req.httpMethod == "GET" &&
      (req.pathname == "/" || req.pathname == "/" ++ s)
  | none => false

/-- The `POST /rpc` block of the handler (`src/rpc.js` lines 62-97),
statement by statement: content-type gate, JSON parse gate, destructuring of
the payload, registry lookup with the falsy test `if (!fn)`, then the `try`
around `await fn(...args)`.  The result is `.error ()` exactly when an
exception escapes the handler itself: the destructuring
`const \x7b method, args \x7d = payload` throws a `TypeError` when the parsed
body is `null` (or `undefined`), and that statement is outside both `try`
blocks. -/
def rpcPost (api : Api) (req : Request) : Except Unit Response :=
  if !(strIncludes (req.contentType.getD "") "application/json") then
    .ok { status := 400, headers := [], body := .text "Bad request" }
  else
    match req.body with
    | none => .ok { status := 400, headers := [], body := .text "Invalid JSON" }
    | some payload =>
      match payload with
      | .null => .error ()
      | .undefined => .error ()
      | _ =>
        match lookupApi api (jsToPropKey (jsGetField payload "method")) with
        | none =>
          .ok { status := 404, headers := ctJsonHeaders,
                body := .json (jsonifyD (.obj [("error", .str "unknown method")])) }
        | some .nonCallable =>
          .ok { status := 500, headers := ctJsonHeaders,
                body := .json (jsonifyD (.obj [("error", .str protoTypeError)])) }
        | some (.fn h) =>
          match spreadArgs (jsGetField payload "args") with
          | .error m =>
            .ok { status := 500, headers := ctJsonHeaders,
                  body := .json (jsonifyD (.obj [("error", .str m)])) }
          | .ok xs =>
            match h xs with
            | .ok v =>
              .ok { status := 200, headers := ctJsonHeaders,
                    body := .json (jsonifyD (.obj [("result", v)])) }
            | .thrown m =>
              .ok { status := 500, headers := ctJsonHeaders,
                    body := .json (jsonifyD (.obj [("error", .str m)])) }

/-- The request handler of `makeRpcServer` (`src/rpc.js` lines 22-100),
branch by branch in source order: static file, discovery endpoint, CORS
preflight, RPC endpoint, plain-text 404 fallback. -/
def handler (api : Api) (cfg : Config) (req : Request) : Except Unit Response :=
  if staticMatch cfg req then
    .ok { status := 200, headers := [("Content-Type", "text/html")],
          body := .file (cfg.staticFile.getD "") }
  else if req.httpMethod == "GET" && req.pathname == "/rpc/methods" then
    .ok { status := 200, headers := ctJsonHeaders,
          body := .json (jsonifyD (.obj [("methods", .arr (methodEntries api))])) }
  else if req.httpMethod == "OPTIONS" then
    .ok { status := 204, headers := corsHeaders cfg req.origin, body := .empty }
  else if req.pathname == "/rpc" && req.httpMethod == "POST" then
    rpcPost api req
  else
    .ok { status := 404, headers := [], body := .text "Not found" }

/-- The demo registry of the spec example `\x7badd:(a,b)=>a+b\x7d`, restricted
to its integer use; it is an input to the theorems below, not part of the
gateway. -/
def demoAdd : Handler := fun args =>
  match args with
  | [.num a, .num b] => .ok (.num (a + b))
  | _ => .thrown "demo add: non-numeric arguments"

/-- Registry holding the single method `add`. -/
def demoApi : Api := ⟨[("add", demoAdd)]⟩

/-- Registry of the spec example `\x7bthrowError:()=>\x7bthrow new Error("boom")\x7d\x7d`. -/
def demoThrowApi : Api := ⟨[("throwError", fun _ => .thrown "boom")]⟩

/-- Registry with a handler returning `undefined` (a bare `return`). -/
def demoUndefApi : Api := ⟨[("noop", fun _ => .ok .undefined)]⟩

/-- The empty registry. -/
def emptyApi : Api := ⟨[]⟩

/-- The default configuration destructured in `makeRpcServer` when no
options are supplied. -/
def defaultConfig : Config :=
  { allowedOrigins := ["http://localhost:3000", "http://127.0.0.1:3000"],
    staticFile := none }

/-- A configuration whose static file name collides with the discovery
route. -/
def shadowConfig : Config := { allowedOrigins := [], staticFile := some "rpc/methods" }

/-- The static-file branch cannot fire on a non-GET request. -/
theorem staticMatch_eq_false (cfg : Config) (req : Request)
    (h : (req.httpMethod == "GET") = false) : staticMatch cfg req = false := by
  unfold staticMatch
  cases cfg.staticFile with
  | none => rfl
  | some s => simp [h]

/-- A `POST /rpc` request reaches exactly the RPC block. -/
theorem handler_post (api : Api) (cfg : Config) (req : Request)
    (h1 : req.httpMethod = "POST") (h2 : req.pathname = "/rpc") :
    handler api cfg req = rpcPost api req := by
  have hs : staticMatch cfg req = false := staticMatch_eq_false cfg req (by rw [h1]; rfl)
  unfold handler
  rw [h1, h2]
  simp only [hs]
  rfl

/-- An `OPTIONS` request reaches exactly the preflight branch, whatever its
path. -/
theorem handler_options (api : Api) (cfg : Config) (req : Request)
    (h : req.httpMethod = "OPTIONS") :
    handler api cfg req =
      .ok { status := 204, headers := corsHeaders cfg req.origin, body := .empty } := by
  have hs : staticMatch cfg req = false := staticMatch_eq_false cfg req (by rw [h]; rfl)
  unfold handler
  rw [h]
  simp only [hs]
  rfl

/-- A `GET /rpc/methods` request reaches the discovery branch, provided the
configured static file name does not collide with the route. -/
theorem handler_methods (api : Api) (cfg : Config) (req : Request)
    (hG : req.httpMethod = "GET") (hp : req.pathname = "/rpc/methods")
    (hsf : cfg.staticFile ≠ some "rpc/methods") :
    handler api cfg req =
      .ok { status := 200, headers := ctJsonHeaders,
            body := .json (jsonifyD (.obj [("methods", .arr (methodEntries api))])) } := by
  have hs : staticMatch cfg req = false := by
    unfold staticMatch
    cases hc : cfg.staticFile with
    | none => rfl
    | some s =>
      rw [hG, hp]
      have hne : s ≠ "rpc/methods" := fun he => hsf (by rw [hc, he])
      have h1 : (("/rpc/methods" : String) == "/" ++ s) = false := by
        apply beq_eq_false_iff_ne.mpr
        intro he
        apply hne
        have h2 : ("/" : String) ++ "rpc/methods" = "/" ++ s := he
        have hd := congrArg String.data h2
        simp only [String.data_append] at hd
        exact (String.ext (List.append_cancel_left hd)).symm
      simp [h1]
  unfold handler
  rw [hG, hp]
  simp only [hs]
  rfl

/-- C1: for every registered method `m` and every JSON argument array whose
invocation of `m` produces the value `v`, a `POST /rpc` with content type
containing `application/json` and body with `method = m` and `args` returns
status 200 whose body is the `JSON.stringify` serialization of the object
with single key `result` and value `v`. -/
theorem rpc_success (api : Api) (cfg : Config) (o : Option String) (ct m : String)
    (f : Handler) (args : List Js) (v : Js)
    (hct : strIncludes ct "application/json" = true)
    (hf : lookupOwn api m = some f)
    (hv : f args = .ok v) :
    handler api cfg
      { httpMethod := "POST", pathname := "/rpc", contentType := some ct,
        origin := o,
        body := some (.obj [("method", .str m), ("args", .arr args)]) } =
      .ok { status := 200, headers := ctJsonHeaders,
            body := .json (jsonifyD (.obj [("result", v)])) } := by
  rw [handler_post _ _ _ rfl rfl]
  simp [rpcPost, jsGetField, jsToPropKey, lookupApi, spreadArgs, hct, hf, hv]

/-- Witness for C1 at the spec example: `add(5, 3) = 8`. -/
theorem rpc_success_witness :
    handler demoApi defaultConfig
      { httpMethod := "POST", pathname := "/rpc", contentType := some "application/json",
        origin := none,
        body := some (.obj [("method", .str "add"), ("args", .arr [.num 5, .num 3])]) } =
      .ok { status := 200, headers := ctJsonHeaders,
            body := .json (jsonifyD (.obj [("result", .num 8)])) } :=
  rpc_success demoApi defaultConfig none "application/json" "add" demoAdd
    [.num 5, .num 3] (.num 8) rfl rfl rfl

/-- C2 counterexample: `toString` is not a key of the registry (which holds
only `add`), yet the response is 200 with result `"[object Undefined]"` —
the inherited `Object.prototype.toString` is dispatched — not the claimed
404. -/
theorem rpc_unknown_method_cex :
    handler demoApi defaultConfig
      { httpMethod := "POST", pathname := "/rpc", contentType := some "application/json",
        origin := none,
        body := some (.obj [("method", .str "toString"), ("args", .arr [])]) } =
      .ok { status := 200, headers := ctJsonHeaders,
            body := .json (.obj [("result", .str "[object Undefined]")]) } := rfl

/-- C2 amended: a well-formed `POST /rpc` naming a method that is neither a
registry key nor an `Object.prototype` property returns 404 with body
exactly the object with single key `error` and value `"unknown method"`. -/
theorem rpc_unknown_method (api : Api) (cfg : Config) (o : Option String)
    (ct m : String) (argsV : Js)
    (hct : strIncludes ct "application/json" = true)
    (hf : lookupApi api m = none) :
    handler api cfg
      { httpMethod := "POST", pathname := "/rpc", contentType := some ct,
        origin := o,
        body := some (.obj [("method", .str m), ("args", argsV)]) } =
      .ok { status := 404, headers := ctJsonHeaders,
            body := .json (.obj [("error", .str "unknown method")]) } := by
  rw [handler_post _ _ _ rfl rfl]
  simp [rpcPost, jsGetField, jsToPropKey, hct, hf, jsonifyD, jsonify, jsonifyFields]

/-- Witness for the amended C2 at the unregistered name `frobnicate`. -/
theorem rpc_unknown_method_witness :
    handler demoApi defaultConfig
      { httpMethod := "POST", pathname := "/rpc", contentType := some "application/json",
        origin := none,
        body := some (.obj [("method", .str "frobnicate"), ("args", .arr [])]) } =
      .ok { status := 404, headers := ctJsonHeaders,
            body := .json (.obj [("error", .str "unknown method")]) } :=
  rpc_unknown_method demoApi defaultConfig none "application/json" "frobnicate"
    (.arr []) rfl rfl

/-- C3: for every registered method whose invocation raises an `Error` with
message `msg`, `POST /rpc` with that method returns status 500 with body the
object with single key `error` and value `msg`. -/
theorem rpc_handler_error (api : Api) (cfg : Config) (o : Option String)
    (ct m msg : String) (f : Handler) (args : List Js)
    (hct : strIncludes ct "application/json" = true)
    (hf : lookupOwn api m = some f)
    (hv : f args = .thrown msg) :
    handler api cfg
      { httpMethod := "POST", pathname := "/rpc", contentType := some ct,
        origin := o,
        body := some (.obj [("method", .str m), ("args", .arr args)]) } =
      .ok { status := 500, headers := ctJsonHeaders,
            body := .json (.obj [("error", .str msg)]) } := by
  rw [handler_post _ _ _ rfl rfl]
  simp [rpcPost, jsGetField, jsToPropKey, lookupApi, spreadArgs, hct, hf, hv,
        jsonifyD, jsonify, jsonifyFields]

/-- Witness for C3 at the spec example: `throwError` raising `boom` gives
500 with error text `boom`. -/
theorem rpc_handler_error_witness :
    handler demoThrowApi defaultConfig
      { httpMethod := "POST", pathname := "/rpc", contentType := some "application/json",
        origin := none,
        body := some (.obj [("method", .str "throwError"), ("args", .arr [])]) } =
      .ok { status := 500, headers := ctJsonHeaders,
            body := .json (.obj [("error", .str "boom")]) } :=
  rpc_handler_error demoThrowApi defaultConfig none "application/json" "throwError"
    "boom" (fun _ => .thrown "boom") [] rfl rfl rfl

/-- C6 counterexample: a well-formed body naming the registered method `add`
but missing the `args` field yields status 500 (the spread of `undefined`
throws a `TypeError` inside the handler `try`), not the claimed 400. -/
theorem rpc_missing_args_cex :
    handler demoApi defaultConfig
      { httpMethod := "POST", pathname := "/rpc", contentType := some "application/json",
        origin := none,
        body := some (.obj [("method", .str "add")]) } =
      .ok { status := 500, headers := ctJsonHeaders,
            body := .json (.obj [("error", .str spreadTypeError)]) } := rfl

/-- C6 amended: a well-formed `POST /rpc` body with a registered method but
no `args` field is answered with status 500 carrying the `TypeError` message
of the failed spread — not 400; field presence is never validated. -/
theorem rpc_missing_args (api : Api) (cfg : Config) (o : Option String)
    (ct m : String) (f : Handler)
    (hct : strIncludes ct "application/json" = true)
    (hf : lookupOwn api m = some f) :
    handler api cfg
      { httpMethod := "POST", pathname := "/rpc", contentType := some ct,
        origin := o,
        body := some (.obj [("method", .str m)]) } =
      .ok { status := 500, headers := ctJsonHeaders,
            body := .json (.obj [("error", .str spreadTypeError)]) } := by
  rw [handler_post _ _ _ rfl rfl]
  simp [rpcPost, jsGetField, jsToPropKey, lookupApi, spreadArgs, hct, hf,
        jsonifyD, jsonify, jsonifyFields]

/-- Witness for the amended C6 at the registered method `throwError`. -/
theorem rpc_missing_args_witness :
    handler demoThrowApi defaultConfig
      { httpMethod := "POST", pathname := "/rpc", contentType := some "application/json",
        origin := none,
        body := some (.obj [("method", .str "throwError")]) } =
      .ok { status := 500, headers := ctJsonHeaders,
            body := .json (.obj [("error", .str spreadTypeError)]) } :=
  rpc_missing_args demoThrowApi defaultConfig none "application/json" "throwError"
    (fun _ => .thrown "boom") rfl rfl

/-- C7: a `POST /rpc` whose content type does not contain the substring
`application/json` (an absent header reads as the empty string) is answered
400 whatever the body holds, and one whose content type does contain it but
whose body is not valid JSON is also answered 400. -/
theorem rpc_requires_json (api : Api) (cfg : Config) (req : Request)
    (hm : req.httpMethod = "POST") (hp : req.pathname = "/rpc") :
    (strIncludes (req.contentType.getD "") "application/json" = false →
      handler api cfg req =
        .ok { status := 400, headers := [], body := .text "Bad request" }) ∧
    (strIncludes (req.contentType.getD "") "application/json" = true →
      req.body = none →
      handler api cfg req =
        .ok { status := 400, headers := [], body := .text "Invalid JSON" }) := by
  rw [handler_post api cfg req hm hp]
  constructor
  · intro hct
    unfold rpcPost
    rw [hct]
    rfl
  · intro hct hb
    unfold rpcPost
    rw [hct, hb]
    rfl

/-- Witness for C7: a `text/plain` request and an unparsable-body request,
both answered 400. -/
theorem rpc_requires_json_witness :
    handler demoApi defaultConfig
      { httpMethod := "POST", pathname := "/rpc", contentType := some "text/plain",
        origin := none, body := some (.obj [("method", .str "add")]) } =
      .ok { status := 400, headers := [], body := .text "Bad request" } ∧
    handler demoApi defaultConfig
      { httpMethod := "POST", pathname := "/rpc", contentType := some "application/json",
        origin := none, body := none } =
      .ok { status := 400, headers := [], body := .text "Invalid JSON" } :=
  ⟨(rpc_requires_json demoApi defaultConfig
      { httpMethod := "POST", pathname := "/rpc", contentType := some "text/plain",
        origin := none, body := some (.obj [("method", .str "add")]) } rfl rfl).1 rfl,
   (rpc_requires_json demoApi defaultConfig
      { httpMethod := "POST", pathname := "/rpc", contentType := some "application/json",
        origin := none, body := none } rfl rfl).2 rfl rfl⟩

/-- C4 counterexample: the body `null` is valid JSON, so the parse succeeds,
and the destructuring `const \x7b method, args \x7d = payload` then throws a
`TypeError` outside both `try` blocks — the exception escapes the handler. -/
theorem handler_escape_cex :
    handler demoApi defaultConfig
      { httpMethod := "POST", pathname := "/rpc", contentType := some "application/json",
        origin := none, body := some .null } = .error () := rfl

/-- C4 amended: for every request whose body does not parse to JSON `null`
(nor to `undefined`, which `JSON.parse` cannot produce), the handler returns
a response — the null-body destructuring is the only uncaught failure. -/
theorem handler_no_escape (api : Api) (cfg : Config) (req : Request)
    (h1 : req.body ≠ some Js.null) (h2 : req.body ≠ some Js.undefined) :
    ∃ r, handler api cfg req = .ok r := by
  unfold handler rpcPost
  repeat' split
  all_goals first
    | exact ⟨_, rfl⟩
    | exact absurd ‹req.body = some Js.null› h1
    | exact absurd ‹req.body = some Js.undefined› h2

/-- Witness for the amended C4 at an arbitrary unmatched request. -/
theorem handler_no_escape_witness :
    ∃ r, handler demoApi defaultConfig
      { httpMethod := "DELETE", pathname := "/nope", contentType := none,
        origin := none, body := none } = .ok r :=
  handler_no_escape demoApi defaultConfig
    { httpMethod := "DELETE", pathname := "/nope", contentType := none,
      origin := none, body := none } (by simp) (by simp)

/-- C5 counterexample: a registered handler that returns `undefined` yields a
200 response whose serialized body is the empty object — it contains neither
a `result` key nor an `error` key, because `JSON.stringify` drops the
`undefined`-valued field. -/
theorem rpc_body_keys_cex :
    handler demoUndefApi defaultConfig
      { httpMethod := "POST", pathname := "/rpc", contentType := some "application/json",
        origin := none,
        body := some (.obj [("method", .str "noop"), ("args", .arr [])]) } =
      .ok { status := 200, headers := ctJsonHeaders, body := .json (.obj []) } := rfl

/-- C5 amended: every JSON body of a `POST /rpc` response carries at most one
of the keys `result` and `error`; exactly one, except that a handler
returning `undefined` produces the empty object carrying neither. -/
theorem rpc_body_keys (api : Api) (cfg : Config) (req : Request) (r : Response) (j : Js)
    (hm : req.httpMethod = "POST") (hp : req.pathname = "/rpc")
    (hr : handler api cfg req = .ok r) (hb : r.body = .json j) :
    jsKeys j = ["result"] ∨ jsKeys j = ["error"] ∨ j = .obj [] := by
  rw [handler_post api cfg req hm hp] at hr
  unfold rpcPost at hr
  repeat' split at hr
  any_goals exact Except.noConfusion hr
  all_goals injection hr with h
  all_goals subst h
  all_goals simp at hb
  all_goals try subst hb
  all_goals simp only [jsonifyD, jsonify, jsonifyFields, jsKeys, Option.getD]
  all_goals try exact Or.inr (Or.inl rfl)
  rename_i v heq
  rcases hjv : jsonify v with _ | w
  · exact Or.inr (Or.inr rfl)
  · exact Or.inl rfl

/-- Witness for the amended C5 at the undefined-returning handler. -/
theorem rpc_body_keys_witness :
    jsKeys (Js.obj []) = ["result"] ∨ jsKeys (Js.obj []) = ["error"] ∨
      Js.obj [] = Js.obj [] :=
  rpc_body_keys demoUndefApi defaultConfig
    { httpMethod := "POST", pathname := "/rpc", contentType := some "application/json",
      origin := none,
      body := some (.obj [("method", .str "noop"), ("args", .arr [])]) }
    { status := 200, headers := ctJsonHeaders, body := .json (.obj []) }
    (.obj []) rfl rfl rfl rfl

/-- An allow-listed origin is echoed (an empty origin string is falsy and
yields the empty value, which then coincides with the origin itself). -/
theorem allowOriginValue_mem (cfg : Config) (o : String)
    (hmem : o ∈ cfg.allowedOrigins) : allowOriginValue cfg (some o) = o := by
  unfold allowOriginValue
  by_cases he : o = ""
  · subst he; simp
  · have hc : cfg.allowedOrigins.contains o = true := List.elem_eq_true_of_mem hmem
    have hne : (o != "") = true := by simp [bne_iff_ne, he]
    simp [hc, hne, hmem]

/-- A non-allow-listed origin yields the empty value. -/
theorem allowOriginValue_not_mem (cfg : Config) (o : String)
    (hmem : o ∉ cfg.allowedOrigins) : allowOriginValue cfg (some o) = "" := by
  unfold allowOriginValue
  have hc : cfg.allowedOrigins.contains o = false := by
    cases hc : cfg.allowedOrigins.contains o with
    | false => rfl
    | true => exact absurd (List.mem_of_elem_eq_true hc) hmem
  simp [hc, hmem]

/-- C8: every `OPTIONS` request is answered 204 with the fixed
`Access-Control-Allow-Methods` and `Access-Control-Allow-Headers` values;
the `Access-Control-Allow-Origin` header echoes the request origin when it
is an entry of the allow list, and is the empty string when the origin is
absent or not listed. -/
theorem options_preflight (api : Api) (cfg : Config) (req : Request)
    (h : req.httpMethod = "OPTIONS") :
    ∃ r, handler api cfg req = .ok r ∧ r.status = 204 ∧
      r.header "Access-Control-Allow-Methods" = some "GET, POST, OPTIONS" ∧
      r.header "Access-Control-Allow-Headers" = some "Content-Type" ∧
      (∀ o, req.origin = some o → o ∈ cfg.allowedOrigins →
        r.header "Access-Control-Allow-Origin" = some o) ∧
      (req.origin = none → r.header "Access-Control-Allow-Origin" = some "") ∧
      (∀ o, req.origin = some o → o ∉ cfg.allowedOrigins →
        r.header "Access-Control-Allow-Origin" = some "") := by
  refine ⟨_, handler_options api cfg req h, rfl, rfl, rfl, ?_, ?_, ?_⟩
  · intro o ho hmem
    show some (allowOriginValue cfg req.origin) = some o
    rw [ho, allowOriginValue_mem cfg o hmem]
  · intro ho
    show some (allowOriginValue cfg req.origin) = some ""
    rw [ho]
    rfl
  · intro o ho hmem
    show some (allowOriginValue cfg req.origin) = some ""
    rw [ho, allowOriginValue_not_mem cfg o hmem]

/-- Witness for C8 at an allow-listed origin of the default configuration. -/
theorem options_preflight_witness :
    ∃ r, handler demoApi defaultConfig
      { httpMethod := "OPTIONS", pathname := "/rpc", contentType := none,
        origin := some "http://localhost:3000", body := none } = .ok r ∧
      r.status = 204 ∧
      r.header "Access-Control-Allow-Methods" = some "GET, POST, OPTIONS" ∧
      r.header "Access-Control-Allow-Headers" = some "Content-Type" ∧
      (∀ o, (some "http://localhost:3000" : Option String) = some o →
        o ∈ defaultConfig.allowedOrigins →
        r.header "Access-Control-Allow-Origin" = some o) ∧
      ((some "http://localhost:3000" : Option String) = none →
        r.header "Access-Control-Allow-Origin" = some "") ∧
      (∀ o, (some "http://localhost:3000" : Option String) = some o →
        o ∉ defaultConfig.allowedOrigins →
        r.header "Access-Control-Allow-Origin" = some "") :=
  options_preflight demoApi defaultConfig
    { httpMethod := "OPTIONS", pathname := "/rpc", contentType := none,
      origin := some "http://localhost:3000", body := none } rfl

/-- Serialization is the identity on the discovery entries (no `undefined`
occurs in them). -/
theorem jsonifyList_entries (l : List (String × Handler)) :
    jsonifyList (l.map fun p => Js.obj [("name", .str p.1), ("type", .str "function")]) =
      l.map fun p => Js.obj [("name", .str p.1), ("type", .str "function")] := by
  induction l with
  | nil => rfl
  | cons p t ih => simp [jsonifyList, jsonify, jsonifyFields, ih]

/-- The `name` field of each discovery entry is the registered name. -/
theorem map_entryName (l : List (String × Handler)) :
    (l.map fun p => Js.obj [("name", .str p.1), ("type", .str "function")]).map entryName =
      l.map fun p => Js.str p.1 := by
  induction l with
  | nil => rfl
  | cons p t ih => simp [entryName, jsGetField, ih]

/-- C9 counterexample: with a configured static file named `rpc/methods`,
`GET /rpc/methods` serves the static file (the static branch is checked
first), not the claimed discovery body — even for the empty registry. -/
theorem rpc_methods_cex :
    handler emptyApi shadowConfig
      { httpMethod := "GET", pathname := "/rpc/methods", contentType := none,
        origin := none, body := none } =
      .ok { status := 200, headers := [("Content-Type", "text/html")],
            body := .file "rpc/methods" } := rfl

/-- C9 amended: for every registry, `GET /rpc/methods` returns 200 with body
`\x7bmethods: [...]\x7d` holding one entry per registered method whose `name`
fields are exactly the registered names in registration order — provided the
configured static file name is not `rpc/methods`, which would shadow the
route. -/
theorem rpc_methods_names (api : Api) (cfg : Config) (req : Request)
    (hG : req.httpMethod = "GET") (hp : req.pathname = "/rpc/methods")
    (hsf : cfg.staticFile ≠ some "rpc/methods") :
    handler api cfg req =
      .ok { status := 200, headers := ctJsonHeaders,
            body := .json (.obj [("methods", .arr (methodEntries api))]) } ∧
    (methodEntries api).map entryName = api.methods.map fun p => Js.str p.1 := by
  constructor
  · rw [handler_methods api cfg req hG hp hsf]
    have hid : jsonifyD (.obj [("methods", .arr (methodEntries api))]) =
        .obj [("methods", .arr (methodEntries api))] := by
      simp [jsonifyD, jsonify, jsonifyFields, methodEntries, jsonifyList_entries]
    rw [hid]
  · exact map_entryName api.methods

/-- Witness for the amended C9 at the one-method registry. -/
theorem rpc_methods_names_witness :
    handler demoApi defaultConfig
      { httpMethod := "GET", pathname := "/rpc/methods", contentType := none,
        origin := none, body := none } =
      .ok { status := 200, headers := ctJsonHeaders,
            body := .json (.obj [("methods", .arr (methodEntries demoApi))]) } ∧
    (methodEntries demoApi).map entryName = demoApi.methods.map fun p => Js.str p.1 :=
  rpc_methods_names demoApi defaultConfig
    { httpMethod := "GET", pathname := "/rpc/methods", contentType := none,
      origin := none, body := none } rfl rfl (fun hc => Option.noConfusion hc)

/-- C10: an `OPTIONS` request to any path whatsoever is answered by the
preflight branch — status 204, empty body — and never reaches the plain-text
404 fallback, because the branch tests only the HTTP method. -/
theorem options_any_path (api : Api) (cfg : Config) (req : Request)
    (h : req.httpMethod = "OPTIONS") :
    ∃ r, handler api cfg req = .ok r ∧ r.status = 204 ∧ r.body = .empty :=
  ⟨_, handler_options api cfg req h, rfl, rfl⟩

/-- Witness for C10 at a path far from `/rpc`. -/
theorem options_any_path_witness :
    ∃ r, handler demoApi defaultConfig
      { httpMethod := "OPTIONS", pathname := "/some/other/path", contentType := none,
        origin := none, body := none } = .ok r ∧ r.status = 204 ∧ r.body = .empty :=
  options_any_path demoApi defaultConfig
    { httpMethod := "OPTIONS", pathname := "/some/other/path", contentType := none,
      origin := none, body := none } rfl
